import Mathlib

/-!
Verification of the CSV-to-payload transformation of `populate_po.py`
(spire-po-import).

The Python source is shallowly embedded: Python strings are `String`
(lists of characters), CSV rows are `List String`, Python floats are
modelled as exact rationals `ℚ`, raised exceptions are an explicit
`Except PyError` result, and the outbound HTTP calls of the ERP system
are an oracle `Erp` together with an explicit trace of `Effect`s.
Python call-arity errors (`TypeError`) are modelled by comparing the
parameter list of the called function with the number of arguments
supplied at the call site.
-/

namespace PopulatePO

/-- Python's `str.strip` on a list of characters: drop whitespace from both ends. -/
def stripChars (l : List Char) : List Char :=
  ((l.dropWhile Char.isWhitespace).reverse.dropWhile Char.isWhitespace).reverse

/-- Python's `str.strip`. -/
def pyStrip (s : String) : String := ⟨stripChars s.data⟩

/-- Python's `str.upper` (the headers handled here are ASCII). -/
def pyUpper (s : String) : String := ⟨s.data.map Char.toUpper⟩

/-- The character class kept by `re.sub(r'[^\d.]', '', value)`:
digits and the decimal point. -/
def isNumChar (c : Char) : Bool := c.isDigit || c == '.'

/-- `re.sub(r'[^\d.]', '', value)`: remove everything except digits and decimal points
(populate_po.py line 95). -/
def stripNonNumeric (s : String) : String := ⟨s.data.filter isNumChar⟩

/-- Number of decimal points in a character list. -/
def dotCount (l : List Char) : ℕ := (l.filter (fun c => c == '.')).length

/-- Whether the list contains a decimal digit. -/
def hasDigit (l : List Char) : Bool := l.any Char.isDigit

/-- Value of a digit string accumulated the way a parser scans it (left fold). -/
def digitsVal (l : List Char) : ℕ := l.foldl (fun a c => 10 * a + (c.toNat - 48)) 0

/-- Positional value of a digit string, written as the usual positional sum:
the spec-side definition of "the exact numeric value" of a digit sequence. -/
def digitsValSpec : List Char → ℕ
  | [] => 0
  | c :: cs => (c.toNat - 48) * 10 ^ cs.length + digitsValSpec cs

/-- The exact numeric value denoted by a numeral `⟨integer part⟩.⟨fraction part⟩`. -/
def numeralValue (l : List Char) : ℚ :=
  (digitsValSpec (l.takeWhile (fun c => c != '.')) : ℚ)
    + (digitsValSpec ((l.dropWhile (fun c => c != '.')).drop 1) : ℚ)
      / 10 ^ ((l.dropWhile (fun c => c != '.')).drop 1).length

/-- Python's `float(s)` restricted to strings made of digits and dots (the only
strings `clean_numeric` feeds it): parsing succeeds iff the string has at least
one digit and at most one dot, otherwise `float` raises `ValueError`.  The
value is exact: floats are idealised as rationals. -/
def pyFloat (l : List Char) : Option ℚ :=
  if hasDigit l ∧ dotCount l ≤ 1 then
    let fp := (l.dropWhile (fun c => c != '.')).drop 1
    some (mkRat (digitsVal (l.takeWhile (fun c => c != '.')) * 10 ^ fp.length
      + digitsVal fp) (10 ^ fp.length))
  else none

/-- `clean_numeric` (populate_po.py lines 91-99): `None` for a falsy input,
strip non-numeric characters, `None` if nothing is left, then `float`,
with `ValueError` turned into `None`. -/
def clean_numeric (value : String) : Option ℚ :=
  if value = "" then none
  else
    let cleaned := stripNonNumeric value
    if cleaned = "" then none else pyFloat cleaned.data

instance {ε α : Type} [DecidableEq ε] [DecidableEq α] : DecidableEq (Except ε α)
  | .error e, .error f => decidable_of_iff (e = f) (by simp)
  | .error _, .ok _ => isFalse (by simp)
  | .ok _, .error _ => isFalse (by simp)
  | .ok a, .ok b => decidable_of_iff (a = b) (by simp)

/-- A failed cell extraction inside the `try` block of `process_line_item`:
a dictionary lookup miss (`KeyError`) or a row index out of range (`IndexError`). -/
inductive CellError
  | keyError (key : String)
  | indexError
deriving DecidableEq

/-- A Python call-arity `TypeError`: the call site supplied too few or too many
positional arguments for the function's parameter list. -/
inductive CallError
  | missingArgs (names : List String)
  | tooMany (expected given : ℕ)
deriving DecidableEq

/-- The `detail` string of an `HTTPException` raised by the source, modelled
structurally: each constructor is one f-string shape with its interpolated values. -/
inductive Detail
  | missingColumn (header : String)
  | rowError (partNo : String) (e : CellError)
  | invalidQuantity (partNo raw : String)
  | creationError (partNo : String) (cause : CallError)
  | poRequired
  | fileRequired
  | poNotFound
  | updateFailed (status : ℕ)
deriving DecidableEq

/-- An exception propagating out of the embedded code. -/
inductive PyError
  | httpError (status : ℕ) (detail : Detail)
  | unboundLocalError
  | nameError (name : String)
  | typeError (e : CallError)
  | stopIteration
deriving DecidableEq

/-- One outbound side effect of row processing: an existence check GET, an
inventory-creation POST, or the warning printed for a part with no description. -/
inductive Effect
  | existsCheck (partNo : String)
  | createItem (partNo description : String)
  | warn (partNo : String)
deriving DecidableEq

/-- The ERP collaborator, as an oracle: what `item_exists` answers for each part. -/
structure Erp where
  itemExists : String → Bool

/-- The `inventory` sub-record of a produced line item. -/
structure Inventory where
  whse : String
  partNo : String
deriving DecidableEq

/-- One produced order line item; `unitPrice` and `description` are the
conditionally inserted keys of the item dict. -/
structure LineItem where
  inventory : Inventory
  orderQty : ℚ
  unitPrice : Option ℚ
  description : Option String
deriving DecidableEq

/-- The order payload `{"items": [...]}` built by `create_payload`. -/
structure Payload where
  items : List LineItem
deriving DecidableEq

/-- `headers_map = {header.upper(): i for i, header in enumerate(headers)}`
(populate_po.py line 154), as a lookup function.  A later duplicate header
overwrites an earlier one, hence the reversed search. -/
def headers_map (hdr : List String) (key : String) : Option ℕ :=
  (hdr.enum.reverse.find? (fun p => pyUpper p.2 == key)).map (fun p => p.1)

/-- `row[headers_map[key]]` for a required column: `KeyError` if the key is
absent, `IndexError` if the row is shorter than the column index. -/
def fetchReq (row : List String) (hm : String → Option ℕ) (key : String) :
    Except CellError String :=
  match hm key with
  | none => .error (.keyError key)
  | some i =>
    match row.get? i with
    | none => .error .indexError
    | some c => .ok c

/-- `row[headers_map[key]] if key in headers_map else None` for an optional
column: `ok none` when the header is absent, `IndexError` only possible when
it is present. -/
def fetchOpt (row : List String) (hm : String → Option ℕ) (key : String) :
    Except CellError (Option String) :=
  match hm key with
  | none => .ok none
  | some i =>
    match row.get? i with
    | none => .error .indexError
    | some c => .ok (some c)

/-- Parameter list of `create_inventory_item` (populate_po.py line 64). -/
def create_inventory_item_params : List String := ["part_no", "description", "cost"]

/-- Number of arguments passed to `create_inventory_item` at populate_po.py
line 125: `create_inventory_item(part_no, description, unit_price, vendor_no)`. -/
def create_inventory_call_argc : ℕ := 4

/-- Python's positional-argument binding check: `TypeError` when the call
site's argument count does not match the parameter list. -/
def callArity (params : List String) (argc : ℕ) : Option CallError :=
  if argc < params.length then some (.missingArgs (params.drop argc))
  else if params.length < argc then some (.tooMany params.length argc)
  else none

/-- `process_line_item` (populate_po.py lines 102-143).  Inside the `try`
block the four cells are extracted in source order (part number, quantity,
unit price, description), the numeric cells are cleaned, and a quantity that
cleans to `None` raises `ValueError`; every exception of the block is turned
into an `HTTPException` whose detail interpolates `part_no` — when the part
number extraction itself failed, `part_no` is unbound and the handler raises
`UnboundLocalError` instead.  Then the inventory logic runs (the creation
call passes four arguments to the three-parameter `create_inventory_item`,
so Python raises `TypeError` before entering it, caught and re-raised as the
"Error creating" `HTTPException`), and finally the item dict is built with
`unitPrice` inserted only when `unit_price` is truthy and `description` only
when non-empty. -/
def process_line_item (erp : Erp) (row : List String) (hm : String → Option ℕ)
    (create_inventory : Bool) (vendor_no : String) :
    List Effect × Except PyError LineItem :=
  match fetchReq row hm "PART NO" with
  | .error _ => ([], .error .unboundLocalError)
  | .ok pcell =>
    let part_no := pyStrip pcell
    match fetchReq row hm "ORDER QTY" with
    | .error e => ([], .error (.httpError 400 (.rowError part_no e)))
    | .ok qcell =>
      let raw_qty := pyStrip qcell
      match fetchOpt row hm "UNIT PRICE" with
      | .error e => ([], .error (.httpError 400 (.rowError part_no e)))
      | .ok praw =>
        let raw_price := praw.map pyStrip
        match fetchOpt row hm "DESCRIPTION" with
        | .error e => ([], .error (.httpError 400 (.rowError part_no e)))
        | .ok draw =>
          let description := (draw.map pyStrip).getD ""
          let order_qty := clean_numeric raw_qty
          let unit_price :=
            match raw_price with
            | some s => if s = "" then none else clean_numeric s
            | none => none
          match order_qty with
          | none => ([], .error (.httpError 400 (.invalidQuantity part_no raw_qty)))
          | some q =>
            let item : LineItem :=
              { inventory := { whse := "00", partNo := part_no }
                orderQty := q
                unitPrice :=
                  match unit_price with
                  | some p => if p = 0 then none else some p
                  | none => none
                description := if description = "" then none else some description }
            if create_inventory && !(erp.itemExists part_no) then
              if description = "" then
                ([.existsCheck part_no, .warn part_no], .ok item)
              else
                match callArity create_inventory_item_params create_inventory_call_argc with
                | some e =>
                  ([.existsCheck part_no],
                    .error (.httpError 400 (.creationError part_no e)))
                | none =>
                  ([.existsCheck part_no, .createItem part_no description], .ok item)
            else
              ((if create_inventory then [.existsCheck part_no] else []), .ok item)

/-- The module-level constant `required_headers` (populate_po.py lines 22-25),
in its written order. -/
def required_headers : List String := ["PART NO", "ORDER QTY"]

/-- `any(line)`: a row is retained iff some cell is a non-empty string
(populate_po.py line 161 skips the others). -/
def retained (row : List String) : Bool := row.any (fun c => c != "")

/-- The row loop of `create_payload` (populate_po.py lines 160-163): skip
rows whose cells are all empty, process the rest in order, appending each
produced item; the first exception aborts the loop. -/
def processRows (erp : Erp) (hm : String → Option ℕ) (create_inventory : Bool)
    (vendor_no : String) :
    List (List String) → List Effect × Except PyError (List LineItem)
  | [] => ([], .ok [])
  | r :: rs =>
    if retained r then
      match process_line_item erp r hm create_inventory vendor_no with
      | (t, .error e) => (t, .error e)
      | (t, .ok item) =>
        let rest := processRows erp hm create_inventory vendor_no rs
        (t ++ rest.1, rest.2.map (fun items => item :: items))
    else processRows erp hm create_inventory vendor_no rs

/-- `create_payload` (populate_po.py lines 146-164): read the header row
(`next` on an empty file raises `StopIteration`), build the upper-cased
header map, raise `Missing {header} column` at the first required header not
in the map, then run the row loop and wrap the items. -/
def create_payload (erp : Erp) (rows : List (List String)) (required : List String)
    (create_inventory : Bool) (vendor_no : String) :
    List Effect × Except PyError Payload :=
  match rows with
  | [] => ([], .error .stopIteration)
  | hdr :: data =>
    match required.find? (fun h => (headers_map hdr h).isNone) with
    | some h => ([], .error (.httpError 400 (.missingColumn h)))
    | none =>
      let res := processRows erp (headers_map hdr) create_inventory vendor_no data
      (res.1, res.2.map Payload.mk)

/-- One record of the PO lookup response. -/
structure PORecord where
  id : ℕ
deriving DecidableEq

/-- The HTTP response of the PO lookup GET. -/
structure POResponse where
  status : ℕ
  records : List PORecord
deriving DecidableEq

/-- Every name assigned at module level of populate_po.py (imports and
definitions).  `po_no` is not among them. -/
def module_scope : List String :=
  ["FastAPI", "File", "UploadFile", "Form", "HTTPException", "HTMLResponse",
   "io", "requests", "HTTPBasicAuth", "json", "time", "urllib", "os", "csv", "re",
   "root_url", "username", "password", "headers", "auth", "required_headers",
   "message_1", "message_2", "format_json_filter", "process_po_number",
   "find_po", "create_inventory_item", "item_exists", "clean_numeric",
   "process_line_item", "create_payload", "app", "upload_form", "upload_file"]

/-- The names visible inside `find_po`'s body: its parameter, its locals,
then the module scope. -/
def find_po_scope : List String :=
  ["url", "response", "response_json", "po"] ++ module_scope

/-- `find_po` (populate_po.py lines 49-61), as a function of the lookup
response.  On a non-200 status the code prints
`f"Could not get PO {po_no}, ..."`; `po_no` is bound in no enclosing scope,
so evaluating the f-string raises `NameError` and the `return []` on line 53
is never reached.  On a 200 response, an empty `records` list yields the
not-found result and otherwise the first record is returned. -/
def find_po (resp : POResponse) : Except PyError (Option PORecord) :=
  if resp.status ≠ 200 then
    if find_po_scope.contains "po_no" then .ok none
    else .error (.nameError "po_no")
  else
    match resp.records with
    | [] => .ok none
    | po :: _ => .ok (some po)

/-- Parameter list of `create_payload` (populate_po.py line 146). -/
def create_payload_params : List String :=
  ["csv_file", "required_headers", "create_inventory", "vendor_no"]

/-- Number of arguments passed to `create_payload` at populate_po.py line 203:
`create_payload(file, required_headers, create_inventory)`. -/
def upload_create_payload_argc : ℕ := 3

/-- The form fields of a POST /upload/ request that the endpoint's own guards
inspect. -/
structure UploadRequest where
  po_number : String
  filename : String
deriving DecidableEq

/-- `upload_file` (populate_po.py lines 185-210) up to the `create_payload`
call: validate the form fields, look the PO up, 404 when it is falsy, then
invoke `create_payload` with three arguments.  Binding those against the
four required parameters raises `TypeError`, so the continuation (the PUT
and its response handling) is unreachable, which the `absurd` branch proves. -/
def upload_file (req : UploadRequest) (resp : POResponse) : Except PyError Payload :=
  if req.po_number = "" then .error (.httpError 422 .poRequired)
  else if req.filename = "" then .error (.httpError 422 .fileRequired)
  else
    match find_po resp with
    | .error e => .error e
    | .ok none => .error (.httpError 404 .poNotFound)
    | .ok (some _) =>
      match h : callArity create_payload_params upload_create_payload_argc with
      | some e => .error (.typeError e)
      | none => absurd h (by decide)

/-- Mapping `process_line_item`-like steps over rows in the `Except` monad:
the first error wins, otherwise all results are collected in order.  Used to
characterise the row loop of `create_payload`. -/
def mapE (f : List String → Except PyError LineItem) :
    List (List String) → Except PyError (List LineItem)
  | [] => .ok []
  | r :: rs =>
    match f r with
    | .error e => .error e
    | .ok item => (mapE f rs).map (fun items => item :: items)

/-- An ERP oracle in which no part exists yet. -/
def erpNone : Erp := { itemExists := fun _ => false }

/-- Recogniser for the invalid-quantity `HTTPException` shape. -/
def isInvalidQuantityErr : PyError → Bool
  | .httpError _ (.invalidQuantity _ _) => true
  | _ => false

theorem digitsVal_foldl (l : List Char) :
    ∀ a : ℕ, l.foldl (fun a c => 10 * a + (c.toNat - 48)) a
      = a * 10 ^ l.length + digitsValSpec l := by
  induction l with
  | nil => intro a; simp [digitsValSpec]
  | cons c cs ih =>
    intro a
    simp only [List.foldl_cons, List.length_cons, digitsValSpec, ih]
    ring

theorem digitsVal_eq_spec (l : List Char) : digitsVal l = digitsValSpec l := by
  simp [digitsVal, digitsVal_foldl]

theorem data_empty_iff (s : String) : s = "" ↔ s.data = [] := by
  cases s with
  | mk l =>
    constructor
    · intro h; rw [h]
    · intro h
      show String.mk l = ""
      rw [show l = [] from h]

theorem mkRat_decimal (a b k : ℕ) :
    (mkRat (a * 10 ^ k + b) (10 ^ k) : ℚ) = (a : ℚ) + (b : ℚ) / 10 ^ k := by
  have hk : ((10 : ℚ) ^ k) ≠ 0 := by positivity
  rw [Rat.mkRat_eq_div]
  push_cast
  field_simp

theorem stripNonNumeric_eq_self (s : String) (h : ∀ c ∈ s.data, isNumChar c = true) :
    stripNonNumeric s = s := by
  cases s with
  | mk l =>
    show String.mk (l.filter isNumChar) = String.mk l
    rw [List.filter_eq_self.mpr h]

theorem hasDigit_filter_false (l : List Char) (h : ∀ c ∈ l, c.isDigit = false) :
    hasDigit (l.filter isNumChar) = false := by
  simp only [hasDigit, List.any_eq_false]
  intro c hc
  exact by simpa using h c (List.mem_of_mem_filter hc)

/-- Claim C1: `clean_numeric` returns `none` for an empty input, for an input
that strips to nothing, and for a stripped string that is not a valid number
(no digit, or more than one decimal point); for every string made only of
digits and at most one decimal point (with at least one digit) it returns the
exact positional value; and for every string with no digit it returns `none`. -/
theorem clean_numeric_correct (s : String) :
    (s = "" → clean_numeric s = none) ∧
    (stripNonNumeric s = "" → clean_numeric s = none) ∧
    (¬ (hasDigit (stripNonNumeric s).data = true ∧ dotCount (stripNonNumeric s).data ≤ 1) →
      clean_numeric s = none) ∧
    ((∀ c ∈ s.data, isNumChar c = true) → hasDigit s.data = true → dotCount s.data ≤ 1 →
      clean_numeric s = some (numeralValue s.data)) ∧
    ((∀ c ∈ s.data, c.isDigit = false) → clean_numeric s = none) := by
  refine ⟨?_, ?_, ?_, ?_, ?_⟩
  · intro h; simp [clean_numeric, h]
  · intro h
    by_cases hs : s = ""
    · simp [clean_numeric, hs]
    · simp [clean_numeric, hs, h]
  · intro h
    by_cases hs : s = ""
    · simp [clean_numeric, hs]
    · by_cases hc : stripNonNumeric s = ""
      · simp [clean_numeric, hs, hc]
      · simp only [clean_numeric, if_neg hs]
        rw [if_neg hc, pyFloat, if_neg h]
  · intro halpha hdig hdot
    have hs : s ≠ "" := by
      intro h
      rw [data_empty_iff] at h
      rw [h] at hdig
      simp [hasDigit] at hdig
    have hid : stripNonNumeric s = s := stripNonNumeric_eq_self s halpha
    simp only [clean_numeric, if_neg hs]
    rw [hid, if_neg hs, pyFloat, if_pos ⟨hdig, hdot⟩]
    simp only [numeralValue, digitsVal_eq_spec, mkRat_decimal]
  · intro h
    by_cases hs : s = ""
    · simp [clean_numeric, hs]
    · by_cases hc : stripNonNumeric s = ""
      · simp [clean_numeric, hs, hc]
      · simp only [clean_numeric, if_neg hs]
        rw [if_neg hc, pyFloat, if_neg]
        intro hcond
        have : hasDigit (stripNonNumeric s).data = false := by
          cases s with
          | mk l => exact hasDigit_filter_false l h
        rw [this] at hcond
        exact absurd hcond.1 (by simp)

/-- Witness for C1 at concrete inputs: "12.5" parses exactly to 25/2 and a
string with no digit cleans to `none`. -/
theorem clean_numeric_correct_witness :
    clean_numeric "12.5" = some (25 / 2) ∧ clean_numeric "$!" = none := by
  constructor
  · rw [(clean_numeric_correct "12.5").2.2.2.1 (by decide) (by decide) (by decide)]
    have h12 : digitsValSpec ['1', '2'] = 12 := by decide
    have h5 : digitsValSpec ['5'] = 5 := by decide
    show some ((digitsValSpec ['1', '2'] : ℚ)
      + (digitsValSpec ['5'] : ℚ) / 10 ^ ([('5' : Char)].length)) = some (25 / 2)
    rw [h12, h5]
    norm_num
  · exact (clean_numeric_correct "$!").2.2.2.2 (by decide)

theorem except_map_ok {ε α β : Type} (f : α → β) (e : Except ε α) (b : β)
    (h : e.map f = .ok b) : ∃ a, e = .ok a ∧ f a = b := by
  cases e with
  | error x => simp [Except.map] at h
  | ok a =>
    refine ⟨a, rfl, ?_⟩
    simpa [Except.map] using h

theorem mapE_length (f : List String → Except PyError LineItem)
    (l : List (List String)) :
    ∀ items, mapE f l = .ok items → items.length = l.length := by
  induction l with
  | nil => intro items h; simp [mapE] at h; simp [← h]
  | cons r rs ih =>
    intro items h
    simp only [mapE] at h
    cases hf : f r with
    | error e => rw [hf] at h; exact absurd h (by simp)
    | ok item =>
      rw [hf] at h
      obtain ⟨rest, hrest, hcons⟩ := except_map_ok _ _ _ h
      rw [← hcons]
      simp [ih rest hrest]

theorem mapE_ok_mem (f : List String → Except PyError LineItem)
    (l : List (List String)) (items : List LineItem) (h : mapE f l = .ok items) :
    ∀ r ∈ l, ∃ i, f r = .ok i := by
  induction l generalizing items with
  | nil => intro r hr; simp at hr
  | cons x xs ih =>
    intro r hr
    simp only [mapE] at h
    cases hf : f x with
    | error e => rw [hf] at h; exact absurd h (by simp)
    | ok item =>
      rw [hf] at h
      obtain ⟨rest, hrest, -⟩ := except_map_ok _ _ _ h
      rcases List.mem_cons.mp hr with hx | hxs
      · exact ⟨item, hx ▸ hf⟩
      · exact ih rest hrest r hxs

theorem processRows_snd_eq (erp : Erp) (hm : String → Option ℕ) (ci : Bool)
    (vn : String) (rows : List (List String)) :
    (processRows erp hm ci vn rows).2
      = mapE (fun r => (process_line_item erp r hm ci vn).2) (rows.filter retained) := by
  induction rows with
  | nil => rfl
  | cons r rs ih =>
    by_cases hr : retained r
    · rw [List.filter_cons_of_pos hr]
      simp only [processRows, hr, if_true, mapE]
      cases hpli : process_line_item erp r hm ci vn with
      | mk t res =>
        cases res with
        | error e => simp
        | ok item => simp [ih]
    · rw [List.filter_cons_of_neg hr]
      simp only [processRows, hr, if_false, Bool.false_eq_true]
      exact ih

/-- Claim C5: with all required headers present, the payload builder is the
`Except`-monadic map of row processing over exactly the rows in which some
cell is non-empty, in input order; in particular a successful build has one
item per retained row. -/
theorem payload_rows_filtered (erp : Erp) (hdr : List String)
    (data : List (List String)) (ci : Bool) (vn : String)
    (hhdr : ∀ h ∈ required_headers, (headers_map hdr h).isSome) :
    (create_payload erp (hdr :: data) required_headers ci vn).2
      = (mapE (fun r => (process_line_item erp r (headers_map hdr) ci vn).2)
          (data.filter retained)).map Payload.mk ∧
    ∀ items, (create_payload erp (hdr :: data) required_headers ci vn).2 = .ok ⟨items⟩ →
      items.length = (data.filter retained).length := by
  have hfind : required_headers.find? (fun h => (headers_map hdr h).isNone) = none := by
    rw [List.find?_eq_none]
    intro x hx hnone
    have h := hhdr x hx
    rw [Option.isNone_iff_eq_none] at hnone
    rw [hnone] at h
    simp at h
  have hmain : (create_payload erp (hdr :: data) required_headers ci vn).2
      = (mapE (fun r => (process_line_item erp r (headers_map hdr) ci vn).2)
          (data.filter retained)).map Payload.mk := by
    simp only [create_payload, hfind]
    rw [processRows_snd_eq]
  refine ⟨hmain, ?_⟩
  intro items hok
  rw [hmain] at hok
  obtain ⟨items', hitems', hmk⟩ := except_map_ok _ _ _ hok
  have : items' = items := by
    simpa [Payload.mk.injEq] using hmk
  rw [← this]
  exact mapE_length _ _ items' hitems'

/-- Witness for C5: a two-row file with one all-blank row yields exactly the
map over the single retained row. -/
theorem payload_rows_filtered_witness :
    (create_payload erpNone [["PART NO", "ORDER QTY"], ["", ""], ["AB", "2"]]
      required_headers false "V").2
      = (mapE (fun r => (process_line_item erpNone r
          (headers_map ["PART NO", "ORDER QTY"]) false "V").2)
          ([[("" : String), ""], ["AB", "2"]].filter retained)).map Payload.mk :=
  (payload_rows_filtered erpNone ["PART NO", "ORDER QTY"] [["", ""], ["AB", "2"]]
    false "V" (by decide)).1

theorem pli_no_missingColumn (erp : Erp) (row : List String) (hm : String → Option ℕ)
    (ci : Bool) (vn : String) (hname : String) :
    (process_line_item erp row hm ci vn).2
      ≠ .error (.httpError 400 (.missingColumn hname)) := by
  cases h1 : fetchReq row hm "PART NO" with
  | error e => simp [process_line_item, h1]
  | ok pcell =>
    cases h2 : fetchReq row hm "ORDER QTY" with
    | error e => simp [process_line_item, h1, h2]
    | ok qcell =>
      cases h3 : fetchOpt row hm "UNIT PRICE" with
      | error e => simp [process_line_item, h1, h2, h3]
      | ok praw =>
        cases h4 : fetchOpt row hm "DESCRIPTION" with
        | error e => simp [process_line_item, h1, h2, h3, h4]
        | ok draw =>
          cases h5 : clean_numeric (pyStrip qcell) with
          | none => simp [process_line_item, h1, h2, h3, h4, h5]
          | some q =>
            have hca : callArity create_inventory_item_params create_inventory_call_argc
                = some (.tooMany 3 4) := by decide
            by_cases h6 : (ci && !erp.itemExists (pyStrip pcell)) = true
            · by_cases h7 : (draw.map pyStrip).getD "" = ""
              · simp [process_line_item, h1, h2, h3, h4, h5, h6, h7]
              · simp [process_line_item, h1, h2, h3, h4, h5, h6, h7, hca]
            · simp [process_line_item, h1, h2, h3, h4, h5, h6]

theorem processRows_no_missingColumn (erp : Erp) (hm : String → Option ℕ) (ci : Bool)
    (vn : String) (rows : List (List String)) (hname : String) :
    (processRows erp hm ci vn rows).2
      ≠ .error (.httpError 400 (.missingColumn hname)) := by
  induction rows with
  | nil => simp [processRows]
  | cons r rs ih =>
    by_cases hr : retained r
    · simp only [processRows, hr, if_true]
      cases hpli : process_line_item erp r hm ci vn with
      | mk t res =>
        cases res with
        | error e =>
          have := pli_no_missingColumn erp r hm ci vn hname
          rw [hpli] at this
          simpa using this
        | ok item =>
          cases hrest : (processRows erp hm ci vn rs).2 with
          | error e =>
            intro hcontra
            simp only [hrest] at hcontra
            rw [hrest] at ih
            simp [Except.map] at hcontra
            exact ih (by rw [hcontra])
          | ok items => simp [hrest, Except.map]
    · simp only [processRows, hr, if_false, Bool.false_eq_true]
      exact ih

/-- Claim C2: a required header missing from the (case-insensitively matched)
header row makes `create_payload` fail with the missing-column error naming
the first missing required header, with an empty effect trace (no network
call) and a result independent of the data rows; when every required header
is present, no missing-column error can arise. -/
theorem header_validation_correct (erp : Erp) (hdr : List String)
    (data data' : List (List String)) (req : List String) (ci : Bool) (vn : String) :
    ((∃ h ∈ req, headers_map hdr h = none) ↔
      ∃ h₀, req.find? (fun x => (headers_map hdr x).isNone) = some h₀) ∧
    (∀ h₀, req.find? (fun x => (headers_map hdr x).isNone) = some h₀ →
      create_payload erp (hdr :: data) req ci vn
          = ([], .error (.httpError 400 (.missingColumn h₀))) ∧
        create_payload erp (hdr :: data) req ci vn
          = create_payload erp (hdr :: data') req ci vn) ∧
    ((∀ h ∈ req, (headers_map hdr h).isSome) →
      ∀ hname, (create_payload erp (hdr :: data) req ci vn).2
        ≠ .error (.httpError 400 (.missingColumn hname))) := by
  refine ⟨?_, ?_, ?_⟩
  · constructor
    · rintro ⟨h, hmem, hnone⟩
      have hsome : (req.find? (fun x => (headers_map hdr x).isNone)).isSome := by
        rw [List.find?_isSome]
        exact ⟨h, hmem, by simp [hnone]⟩
      exact Option.isSome_iff_exists.mp hsome
    · rintro ⟨h₀, hfind⟩
      have hp := List.find?_some hfind
      have hmem := List.mem_of_find?_eq_some hfind
      exact ⟨h₀, hmem, by simpa [Option.isNone_iff_eq_none] using hp⟩
  · intro h₀ hfind
    constructor
    · simp [create_payload, hfind]
    · simp [create_payload, hfind]
  · intro hall hname
    have hfind : req.find? (fun x => (headers_map hdr x).isNone) = none := by
      rw [List.find?_eq_none]
      intro x hx hnone
      have h := hall x hx
      rw [Option.isNone_iff_eq_none] at hnone
      rw [hnone] at h
      simp at h
    simp only [create_payload, hfind]
    intro hcontra
    apply processRows_no_missingColumn erp (headers_map hdr) ci vn data hname
    cases he : (processRows erp (headers_map hdr) ci vn data).2 with
    | error e =>
      rw [he] at hcontra
      simp [Except.map] at hcontra
      rw [hcontra]
    | ok items =>
      rw [he] at hcontra
      simp [Except.map] at hcontra

/-- Witness for C2 at a concrete file: the header row lacks ORDER QTY, so the
build fails naming it, with no effects, independently of the data rows. -/
theorem header_validation_correct_witness :
    create_payload erpNone [["PART NO"], ["AB", "2"]] required_headers false "V"
        = ([], .error (.httpError 400 (.missingColumn "ORDER QTY"))) ∧
      create_payload erpNone [["PART NO"], ["AB", "2"]] required_headers false "V"
        = create_payload erpNone [["PART NO"]] required_headers false "V" :=
  (header_validation_correct erpNone ["PART NO"] [["AB", "2"]] [] required_headers
    false "V").2.1 "ORDER QTY" (by decide)

/-- Claim C3 counterexample: the non-empty row `ABC123,` under the round-trip
header row has a quantity cell that cleans to `none`, yet row processing
raises the generic "Error geting values" `HTTPException` (an `IndexError`
while extracting the UNIT PRICE cell, which the source reads before checking
the quantity), not the invalid-quantity error carrying the raw value. -/
theorem invalid_quantity_counterexample :
    retained ["ABC123", ""] = true ∧
    clean_numeric (pyStrip "") = none ∧
    process_line_item erpNone ["ABC123", ""]
      (headers_map ["PART NO", "ORDER QTY", "DESCRIPTION", "UNIT PRICE"]) false "V"
      = ([], .error (.httpError 400 (.rowError "ABC123" .indexError))) ∧
    isInvalidQuantityErr (.httpError 400 (.rowError "ABC123" .indexError)) = false := by
  decide

/-- Claim C3 (amended): for every non-empty row from which all four cell
extractions succeed (in particular the row has a cell at every mapped column
index) and whose quantity cell cleans to `none`, row processing fails with
the invalid-quantity `HTTPException` carrying the stripped raw value and the
row's part number, and whenever such a row is among the data rows the whole
payload build returns no payload. -/
theorem invalid_quantity_amended (erp : Erp) (row : List String)
    (hm : String → Option ℕ) (ci : Bool) (vn : String) (pcell qcell : String)
    (praw draw : Option String)
    (hret : retained row = true)
    (hp : fetchReq row hm "PART NO" = .ok pcell)
    (hq : fetchReq row hm "ORDER QTY" = .ok qcell)
    (hpr : fetchOpt row hm "UNIT PRICE" = .ok praw)
    (hd : fetchOpt row hm "DESCRIPTION" = .ok draw)
    (hclean : clean_numeric (pyStrip qcell) = none) :
    process_line_item erp row hm ci vn
      = ([], .error (.httpError 400
          (.invalidQuantity (pyStrip pcell) (pyStrip qcell)))) ∧
    ∀ hdr data req payload, row ∈ data → hm = headers_map hdr →
      (create_payload erp (hdr :: data) req ci vn).2 ≠ .ok payload := by
  have hpli : process_line_item erp row hm ci vn
      = ([], .error (.httpError 400
          (.invalidQuantity (pyStrip pcell) (pyStrip qcell)))) := by
    simp [process_line_item, hp, hq, hpr, hd, hclean]
  refine ⟨hpli, ?_⟩
  intro hdr data req payload hmem hhm hok
  simp only [create_payload] at hok
  cases hfind : req.find? (fun h => (headers_map hdr h).isNone) with
  | some h => rw [hfind] at hok; simp at hok
  | none =>
    rw [hfind] at hok
    simp only at hok
    obtain ⟨items, hitems, -⟩ := except_map_ok _ _ _ hok
    rw [processRows_snd_eq] at hitems
    have hmem' : row ∈ data.filter retained := List.mem_filter.mpr ⟨hmem, hret⟩
    obtain ⟨i, hi⟩ := mapE_ok_mem _ _ _ hitems row hmem'
    rw [← hhm, hpli] at hi
    simp at hi

/-- Witness for C3 (amended) at a concrete input: under the two-column header
the row `ABC123,` does fail with the invalid-quantity error, and a file
containing it builds no payload. -/
theorem invalid_quantity_amended_witness :
    process_line_item erpNone ["ABC123", ""]
      (headers_map ["PART NO", "ORDER QTY"]) false "V"
      = ([], .error (.httpError 400 (.invalidQuantity "ABC123" ""))) ∧
    ∀ hdr data req payload, ["ABC123", ""] ∈ data →
      headers_map ["PART NO", "ORDER QTY"] = headers_map hdr →
      (create_payload erpNone (hdr :: data) req false "V").2 ≠ .ok payload := by
  have h := invalid_quantity_amended erpNone ["ABC123", ""]
    (headers_map ["PART NO", "ORDER QTY"]) false "V" "ABC123" "" none none
    (by decide) (by decide) (by decide) (by decide) (by decide) (by decide)
  exact ⟨h.1, h.2⟩

/-- Claim C4: the round-trip file with headers
PART NO, ORDER QTY, DESCRIPTION, UNIT PRICE and the single data row
`ABC123,5,Bolt,$1.50` yields exactly one line item with warehouse "00",
part number ABC123, quantity 5, unit price 1.5 and description Bolt. -/
theorem roundtrip_single_row :
    (create_payload erpNone
      [["PART NO", "ORDER QTY", "DESCRIPTION", "UNIT PRICE"],
       ["ABC123", "5", "Bolt", "$1.50"]] required_headers false "V").2
      = .ok ⟨[{ inventory := { whse := "00", partNo := "ABC123" },
                orderQty := 5, unitPrice := some (3 / 2),
                description := some "Bolt" }]⟩ := by
  have h32 : (3 / 2 : ℚ) = mkRat 3 2 := by
    rw [Rat.mkRat_eq_div]
    norm_num
  rw [h32]
  decide

/-- Claim C6 counterexample: a retained row whose part-number cell is empty
is processed without complaint and yields a LineItem whose `partNo` is the
empty string, so "every LineItem has a non-empty partNo" fails on the code. -/
theorem line_item_empty_partno_counterexample :
    retained ["", "5"] = true ∧
    process_line_item erpNone ["", "5"] (headers_map ["PART NO", "ORDER QTY"])
      false "V"
      = ([], .ok { inventory := { whse := "00", partNo := "" }, orderQty := 5,
                   unitPrice := none, description := none }) := by
  decide

/-- Claim C6 (amended): every produced LineItem carries warehouse "00", a
`partNo` equal to the stripped part-number cell (possibly empty: the code
does not validate non-emptiness), a numeric `orderQty` that is exactly what
the quantity cell cleaned to, a `unitPrice` only when the price cell was
present, stripped non-empty and cleaned to a valid number, and a
`description` only when the stripped description cell was non-empty. -/
theorem line_item_invariants_amended (erp : Erp) (row : List String)
    (hm : String → Option ℕ) (ci : Bool) (vn : String) (pcell qcell : String)
    (item : LineItem)
    (hp : fetchReq row hm "PART NO" = .ok pcell)
    (hq : fetchReq row hm "ORDER QTY" = .ok qcell)
    (hok : (process_line_item erp row hm ci vn).2 = .ok item) :
    item.inventory.whse = "00" ∧
    item.inventory.partNo = pyStrip pcell ∧
    clean_numeric (pyStrip qcell) = some item.orderQty ∧
    (∀ p, item.unitPrice = some p →
      ∃ c, fetchOpt row hm "UNIT PRICE" = .ok (some c) ∧ pyStrip c ≠ "" ∧
        clean_numeric (pyStrip c) = some p) ∧
    (∀ d, item.description = some d →
      d ≠ "" ∧ ∃ c, fetchOpt row hm "DESCRIPTION" = .ok (some c) ∧ pyStrip c = d) := by
  cases h3 : fetchOpt row hm "UNIT PRICE" with
  | error e => simp [process_line_item, hp, hq, h3] at hok
  | ok praw =>
    cases h4 : fetchOpt row hm "DESCRIPTION" with
    | error e => simp [process_line_item, hp, hq, h3, h4] at hok
    | ok draw =>
      cases h5 : clean_numeric (pyStrip qcell) with
      | none => simp [process_line_item, hp, hq, h3, h4, h5] at hok
      | some q =>
        have main : item =
            { inventory := { whse := "00", partNo := pyStrip pcell }
              orderQty := q
              unitPrice :=
                match (match praw.map pyStrip with
                       | some s => if s = "" then none else clean_numeric s
                       | none => none : Option ℚ) with
                | some p => if p = 0 then none else some p
                | none => none
              description := if (draw.map pyStrip).getD "" = "" then none
                else some ((draw.map pyStrip).getD "") } →
            item.inventory.whse = "00" ∧
            item.inventory.partNo = pyStrip pcell ∧
            some q = some item.orderQty ∧
            (∀ p, item.unitPrice = some p →
              ∃ c, (Except.ok praw : Except CellError (Option String)) = .ok (some c) ∧
                pyStrip c ≠ "" ∧ clean_numeric (pyStrip c) = some p) ∧
            (∀ d, item.description = some d →
              d ≠ "" ∧ ∃ c, (Except.ok draw : Except CellError (Option String))
                = .ok (some c) ∧ pyStrip c = d) := by
          intro hitem
          refine ⟨by rw [hitem], by rw [hitem], by rw [hitem], ?_, ?_⟩
          · intro p hp'
            rw [hitem] at hp'
            cases praw with
            | none => simp at hp'
            | some c =>
              have hp2 : (match (if pyStrip c = "" then none
                  else clean_numeric (pyStrip c) : Option ℚ) with
                | some x => if x = 0 then none else some x
                | none => none) = some p := hp'
              by_cases hc : pyStrip c = ""
              · rw [if_pos hc] at hp2
                exact absurd hp2 (by simp)
              · rw [if_neg hc] at hp2
                cases hcc : clean_numeric (pyStrip c) with
                | none =>
                  rw [hcc] at hp2
                  exact absurd hp2 (by simp)
                | some p' =>
                  rw [hcc] at hp2
                  have hp3 : (if p' = 0 then (none : Option ℚ) else some p')
                      = some p := hp2
                  by_cases hz : p' = 0
                  · rw [if_pos hz] at hp3
                    exact absurd hp3 (by simp)
                  · rw [if_neg hz] at hp3
                    exact ⟨c, rfl, hc, by rw [hcc]; exact hp3⟩
          · intro d hd'
            rw [hitem] at hd'
            by_cases h7 : (draw.map pyStrip).getD "" = ""
            · simp [h7] at hd'
            · simp only [h7, if_false] at hd'
              cases draw with
              | none => simp at h7
              | some c =>
                have hcd : pyStrip c = d := by simpa using hd'
                refine ⟨?_, c, rfl, hcd⟩
                rw [← hcd]
                simpa using h7
        by_cases h6 : (ci && !erp.itemExists (pyStrip pcell)) = true
        · by_cases h7 : (draw.map pyStrip).getD "" = ""
          · apply main
            simp [process_line_item, hp, hq, h3, h4, h5, h6, h7] at hok
            rw [← hok]
            simp [h7]
          · have hca : callArity create_inventory_item_params create_inventory_call_argc
                = some (.tooMany 3 4) := by decide
            simp [process_line_item, hp, hq, h3, h4, h5, h6, h7, hca] at hok
        · apply main
          simp [process_line_item, hp, hq, h3, h4, h5, h6] at hok
          rw [← hok]

/-- Witness for C6 (amended) at a concrete row. -/
theorem line_item_invariants_amended_witness :
    let item : LineItem :=
      { inventory := { whse := "00", partNo := "AB" }, orderQty := 2,
        unitPrice := none, description := none }
    item.inventory.whse = "00" ∧
    item.inventory.partNo = pyStrip "AB" ∧
    clean_numeric (pyStrip "2") = some item.orderQty ∧
    (∀ p, item.unitPrice = some p →
      ∃ c, fetchOpt ["AB", "2"] (headers_map ["PART NO", "ORDER QTY"]) "UNIT PRICE"
          = .ok (some c) ∧ pyStrip c ≠ "" ∧ clean_numeric (pyStrip c) = some p) ∧
    (∀ d, item.description = some d →
      d ≠ "" ∧ ∃ c, fetchOpt ["AB", "2"] (headers_map ["PART NO", "ORDER QTY"])
          "DESCRIPTION" = .ok (some c) ∧ pyStrip c = d) :=
  line_item_invariants_amended erpNone ["AB", "2"]
    (headers_map ["PART NO", "ORDER QTY"]) false "V" "AB" "2"
    { inventory := { whse := "00", partNo := "AB" }, orderQty := 2,
      unitPrice := none, description := none }
    (by decide) (by decide) (by decide)

/-- Claim C7 (code bug, evaluated): with the creation flag set and a part the
ERP does not have, a row with a non-blank description aborts with the
"Error creating" `HTTPException` whose cause is the call-arity `TypeError`
(four arguments passed to the three-parameter `create_inventory_item`), and
its effect trace contains no creation call; a row with a blank description
warns, skips creation, and still yields the item without a description. -/
theorem inventory_creation_arity_bug :
    process_line_item erpNone ["ABC123", "5", "Bolt"]
      (headers_map ["PART NO", "ORDER QTY", "DESCRIPTION"]) true "V"
      = ([.existsCheck "ABC123"],
         .error (.httpError 400 (.creationError "ABC123" (.tooMany 3 4)))) ∧
    process_line_item erpNone ["ABC123", "5", ""]
      (headers_map ["PART NO", "ORDER QTY", "DESCRIPTION"]) true "V"
      = ([.existsCheck "ABC123", .warn "ABC123"],
         .ok { inventory := { whse := "00", partNo := "ABC123" }, orderQty := 5,
               unitPrice := none, description := none }) ∧
    callArity create_inventory_item_params create_inventory_call_argc
      = some (.tooMany 3 4) := by
  decide

/-- Claim C8: whenever the upload endpoint's own guards pass (non-empty PO
number and filename, PO found), the `create_payload` invocation supplies
three arguments for four required parameters, so the request always fails
with the `TypeError` naming the missing `vendor_no` argument: no upload can
complete the CSV-to-payload transformation. -/
theorem upload_missing_vendor_no (req : UploadRequest) (resp : POResponse)
    (po : PORecord)
    (hpo : ¬ req.po_number = "") (hf : ¬ req.filename = "")
    (hfind : find_po resp = .ok (some po)) :
    upload_file req resp = .error (.typeError (.missingArgs ["vendor_no"])) := by
  simp [upload_file, hpo, hf, hfind, callArity, create_payload_params,
    upload_create_payload_argc]

/-- Witness for C8 at a concrete request and lookup response. -/
theorem upload_missing_vendor_no_witness :
    upload_file { po_number := "123", filename := "a.csv" }
      { status := 200, records := [{ id := 1 }] }
      = .error (.typeError (.missingArgs ["vendor_no"])) :=
  upload_missing_vendor_no { po_number := "123", filename := "a.csv" }
    { status := 200, records := [{ id := 1 }] } { id := 1 }
    (by decide) (by decide) (by decide)

/-- Claim C9: a unit-price cell that cleans to the numeric value 0 — and
likewise one that cleans to `none` — yields a LineItem with no `unitPrice`
field (the insertion is guarded by Python truthiness), and the absent price
is not by itself an error: with the creation flag off the row still
produces an item. -/
theorem zero_price_omitted (erp : Erp) (row : List String)
    (hm : String → Option ℕ) (vn : String) (pcell qcell c : String)
    (draw : Option String) (q : ℚ)
    (hp : fetchReq row hm "PART NO" = .ok pcell)
    (hq : fetchReq row hm "ORDER QTY" = .ok qcell)
    (hpr : fetchOpt row hm "UNIT PRICE" = .ok (some c))
    (hd : fetchOpt row hm "DESCRIPTION" = .ok draw)
    (hqc : clean_numeric (pyStrip qcell) = some q)
    (hprice : clean_numeric (pyStrip c) = some 0 ∨ clean_numeric (pyStrip c) = none) :
    (∀ ci item, (process_line_item erp row hm ci vn).2 = .ok item →
      item.unitPrice = none) ∧
    ∃ item, (process_line_item erp row hm false vn).2 = .ok item ∧
      item.unitPrice = none := by
  have hup : (match (if pyStrip c = "" then none
      else clean_numeric (pyStrip c) : Option ℚ) with
    | some x => if x = 0 then none else some x
    | none => none) = (none : Option ℚ) := by
    by_cases hc : pyStrip c = ""
    · rw [if_pos hc]
    · rw [if_neg hc]
      rcases hprice with hz | hn
      · rw [hz]
        simp
      · rw [hn]
  constructor
  · intro ci item hok
    by_cases h6 : (ci && !erp.itemExists (pyStrip pcell)) = true
    · by_cases h7 : ((draw.map pyStrip).getD "" = "")
      · simp [process_line_item, hp, hq, hpr, hd, hqc, h6, h7] at hok
        subst hok
        show (match (if pyStrip c = "" then none
            else clean_numeric (pyStrip c) : Option ℚ) with
          | some x => if x = 0 then none else some x
          | none => none) = (none : Option ℚ)
        exact hup
      · have hca : callArity create_inventory_item_params create_inventory_call_argc
            = some (.tooMany 3 4) := by decide
        simp [process_line_item, hp, hq, hpr, hd, hqc, h6, h7, hca] at hok
    · simp [process_line_item, hp, hq, hpr, hd, hqc, h6] at hok
      subst hok
      show (match (if pyStrip c = "" then none
          else clean_numeric (pyStrip c) : Option ℚ) with
        | some x => if x = 0 then none else some x
        | none => none) = (none : Option ℚ)
      exact hup
  · have hpli : (process_line_item erp row hm false vn).2 = .ok
        { inventory := { whse := "00", partNo := pyStrip pcell }
          orderQty := q
          unitPrice := match (if pyStrip c = "" then none
              else clean_numeric (pyStrip c) : Option ℚ) with
            | some x => if x = 0 then none else some x
            | none => none
          description := if ((draw.map pyStrip).getD "" = "") then none
            else some ((draw.map pyStrip).getD "") } := by
      simp [process_line_item, hp, hq, hpr, hd, hqc]
    exact ⟨_, hpli, hup⟩

/-- Witness for C9 at a concrete row whose price cell is `$0.00`. -/
theorem zero_price_omitted_witness :
    (∀ ci item, (process_line_item erpNone ["AB", "2", "x", "$0.00"]
        (headers_map ["PART NO", "ORDER QTY", "DESCRIPTION", "UNIT PRICE"]) ci "V").2
        = .ok item → item.unitPrice = none) ∧
    ∃ item, (process_line_item erpNone ["AB", "2", "x", "$0.00"]
        (headers_map ["PART NO", "ORDER QTY", "DESCRIPTION", "UNIT PRICE"]) false "V").2
        = .ok item ∧ item.unitPrice = none :=
  zero_price_omitted erpNone ["AB", "2", "x", "$0.00"]
    (headers_map ["PART NO", "ORDER QTY", "DESCRIPTION", "UNIT PRICE"]) "V"
    "AB" "2" "$0.00" (some "x") 2
    (by decide) (by decide) (by decide) (by decide) (by decide) (by decide)

/-- Claim C10: a non-200 lookup status makes `find_po` raise `NameError` for
the unbound `po_no` (never returning the not-found result), while the
specified not-found path (empty records) is taken only on a 200 response. -/
theorem find_po_nameerror (resp : POResponse) :
    (resp.status ≠ 200 → find_po resp = .error (.nameError "po_no")) ∧
    (resp.status = 200 → resp.records = [] → find_po resp = .ok none) := by
  constructor
  · intro h
    simp only [find_po, if_pos h]
    rw [if_neg (by decide)]
  · intro h he
    simp [find_po, h, he]

/-- Witness for C10: a 500 response raises the `NameError`, and a 200 response
with no records yields not-found. -/
theorem find_po_nameerror_witness :
    find_po { status := 500, records := [] } = .error (.nameError "po_no") ∧
    find_po { status := 200, records := [] } = .ok none :=
  ⟨(find_po_nameerror { status := 500, records := [] }).1 (by decide),
   (find_po_nameerror { status := 200, records := [] }).2 (by decide) (by decide)⟩

end PopulatePO
